import Mathlib

/-!
Verification of the image-fit, scroll-animation, menu and CLI logic of the
signage repository (source files show_png.py and menu.py).

Image sizes are natural numbers; scale factors are rationals; the easing
curve works over the reals.  Python's `int()` (truncation toward zero) is
modelled by `pyIntQ` / `pyIntR`, and Python's floor division `//` by
`Int.fdiv`.  File names are Lean strings; Python's string comparison and
`str.endswith` are modelled on the code-point lists of the strings.
-/

namespace ShowPng

/-- Python `int(x)` on a rational: truncation toward zero. -/
def pyIntQ (x : ℚ) : ℤ :=
  if 0 ≤ x then ⌊x⌋ else ⌈x⌉

/-- Width and height of a PIL image. -/
structure PSize where
  w : ℕ
  h : ℕ
deriving DecidableEq

/-- Size of `img.resize((nw, nh))` inside `scale_letterbox_allow_zoom`:
`scale = max(target_w / iw, target_h / ih); scale = max(scale, min_zoom);
nw, nh = max(1, int(iw * scale)), max(1, int(ih * scale))`. -/
def resized_dims (iw ih tw th : ℕ) (min_zoom : ℚ) : ℕ × ℕ :=
  let scale := max (max ((tw : ℚ) / (iw : ℚ)) ((th : ℚ) / (ih : ℚ))) min_zoom
  (max 1 (pyIntQ ((iw : ℚ) * scale)).toNat,
   max 1 (pyIntQ ((ih : ℚ) * scale)).toNat)

/-- Size of the image returned by `scale_letterbox_allow_zoom(img, tw, th, min_zoom)`:
the resized image is pasted centered on a canvas of size
`(max(tw, nw), max(th, nh))` and the canvas is center-cropped with the box
`(left, top, left + tw, top + th)`; PIL's `crop` returns an image whose size
is exactly the box size. -/
def scale_letterbox_allow_zoom (iw ih tw th : ℕ) (min_zoom : ℚ) : PSize :=
  let nw := (resized_dims iw ih tw th min_zoom).1
  let nh := (resized_dims iw ih tw th min_zoom).2
  let cw := max tw nw
  let ch := max th nh
  let left := Int.fdiv ((cw : ℤ) - (tw : ℤ)) 2
  let top := Int.fdiv ((ch : ℤ) - (th : ℤ)) 2
  ⟨((left + tw) - left).toNat, ((top + th) - top).toNat⟩

/-- Size of the pannable `source` image built at the top of
`show_image_with_scroll`: scale with `min_zoom=1.0`; if the result is exactly
the screen size in both dimensions, rescale with `min_zoom=1.05`. -/
def sourceSize (iw ih sw sh : ℕ) : PSize :=
  let temp := scale_letterbox_allow_zoom iw ih sw sh 1
  if temp.h = sh ∧ temp.w = sw then
    scale_letterbox_allow_zoom iw ih sw sh (21 / 20)
  else
    temp

/-- `max_scroll = max(0, src_h - scr_h)` in `show_image_with_scroll`. -/
def maxScroll (iw ih sw sh : ℕ) : ℤ :=
  max 0 (((sourceSize iw ih sw sh).h : ℤ) - (sh : ℤ))

/-- `total_frames = max(1, int(seconds * fps))` in `show_image_with_scroll`. -/
def totalFrames (seconds fps : ℚ) : ℕ :=
  max 1 (pyIntQ (seconds * fps)).toNat

open Classical in
/-- Python `int(x)` on a real: truncation toward zero. -/
noncomputable def pyIntR (x : ℝ) : ℤ :=
  if 0 ≤ x then ⌊x⌋ else ⌈x⌉

/-- `t = frame / (total_frames - 1) if total_frames > 1 else 1.0`. -/
noncomputable def tOf (frame total : ℕ) : ℝ :=
  if 1 < total then (frame : ℝ) / ((total : ℝ) - 1) else 1

/-- `ease_in_out(t) = 0.5 - 0.5 * math.cos(math.pi * t)`. -/
noncomputable def ease_in_out (t : ℝ) : ℝ :=
  0.5 - 0.5 * Real.cos (Real.pi * t)

/-- `offset_y = int(eased * max_scroll)` for the frame of index `frame`
out of `total`. -/
noncomputable def offset_y (frame total : ℕ) (max_scroll : ℤ) : ℤ :=
  pyIntR (ease_in_out (tOf frame total) * (max_scroll : ℝ))

/-- The vertical offsets of the frames rendered by the `for frame in
range(total_frames)` loop of `show_image_with_scroll`. -/
noncomputable def frameOffsets (seconds fps : ℚ) (max_scroll : ℤ) : List ℤ :=
  (List.range (totalFrames seconds fps)).map
    (fun i => offset_y i (totalFrames seconds fps) max_scroll)

/-- Lexicographic comparison of character lists by code point, as Python
compares strings. -/
def lexLe : List Char → List Char → Bool
  | [], _ => true
  | _ :: _, [] => false
  | a :: as, b :: bs =>
      if a.toNat < b.toNat then true
      else if b.toNat < a.toNat then false
      else lexLe as bs

/-- Python string comparison `a <= b` for file names. -/
def nameLe (a b : String) : Bool := lexLe a.data b.data

/-- Python `s.endswith(suff)`. -/
def pyEndsWith (s suff : String) : Bool := List.isSuffixOf suff.data s.data

/-- Sorting by name, as Python's `sorted` does on the paths returned by
`folder.glob(pattern)` for files of one folder. -/
def sortNames (l : List String) : List String :=
  List.insertionSort (fun a b => nameLe a b = true) l

/-- The extension patterns of `collect_image_files`, in source order:
`exts = ("*.png", "*.jpg", "*.jpeg", "*.webp", "*.bmp")`. -/
def image_exts : List String :=
  [".png", ".jpg", ".jpeg", ".webp", ".bmp"]

/-- `collect_image_files(folder)`: for each extension pattern in order,
extend the result with the sorted matches of that pattern.  A folder is
modelled by the list of its file names; `folder.glob("*" + e)` by filtering
the names with suffix `e`. -/
def collect_image_files (names : List String) : List String :=
  image_exts.foldl
    (fun acc e => acc ++ sortNames (names.filter (fun n => pyEndsWith n e))) []

/-- `seconds` as computed by `main`: default `5.0`, overwritten by
`float(sys.argv[2])` when that call succeeds.  The Python float parser is
an opaque parameter `pf`; `pf s = none` models `float(s)` raising. -/
def parse_seconds (pf : String → Option ℚ) (argv : List String) : ℚ :=
  if 3 ≤ argv.length then
    match pf (argv.getD 2 "") with
    | some v => v
    | none => 5
  else 5

end ShowPng

namespace Menu

/-- Layout constant `TOPBAR_HEIGHT` of `run_menu` (menu.py). -/
def TOPBAR_HEIGHT : ℤ := 70

/-- Layout constant `BUTTON_WIDTH` of `run_menu`. -/
def BUTTON_WIDTH : ℤ := 220

/-- Layout constant `BUTTON_HEIGHT` of `run_menu`. -/
def BUTTON_HEIGHT : ℤ := 45

/-- Scroll step `SCROLL_SPEED` of `run_menu`. -/
def SCROLL_SPEED : ℤ := 50

/-- pygame's `K_ESCAPE` key code. -/
def K_ESCAPE : ℤ := 27

/-- One gallery row: its absolute path and its layout height
(`scaled image height + TEXT_HEIGHT + ITEM_PADDING * 2`). -/
structure MenuItem where
  path : String
  height : ℤ
deriving DecidableEq

/-- The result value `run_menu` returns: a tag and an optional path. -/
abbrev MenuResult := String × Option String

/-- The mutable loop state of `run_menu`: `scroll_y` and `hover_index`. -/
structure MenuState where
  scroll_y : ℤ
  hover : Option ℕ
deriving DecidableEq

/-- Events drained by `pygame.event.get()` in one loop iteration. -/
inductive MenuEvent
  | quit
  | keydown (key : ℤ)
  | mousedown (button : ℤ)
deriving DecidableEq

/-- One iteration's input: the mouse position read once at the top of the
loop by `pygame.mouse.get_pos()`, and the drained event list. -/
structure FrameInput where
  mx : ℤ
  my : ℤ
  events : List MenuEvent
deriving DecidableEq

/-- `button_rect.collidepoint(mx, my)` for
`Rect(30, TOPBAR_HEIGHT // 2 - BUTTON_HEIGHT // 2, BUTTON_WIDTH, BUTTON_HEIGHT)`;
pygame treats the right and bottom edges as outside. -/
def buttonCollide (mx my : ℤ) : Bool :=
  decide (30 ≤ mx) && decide (mx < 30 + BUTTON_WIDTH) &&
  decide (13 ≤ my) && decide (my < 13 + BUTTON_HEIGHT)

/-- `rect.collidepoint(mx, my)` for a row `Rect(40, y, WIDTH - 80, height)`. -/
def rowCollide (W mx my y h : ℤ) : Bool :=
  decide (40 ≤ mx) && decide (mx < W - 40) && decide (y ≤ my) && decide (my < y + h)

/-- The row-drawing loop: starting at `y = scroll_y + TOPBAR_HEIGHT + 20`,
each row whose rect contains the pointer overwrites `hover_index` with its
index; `y` advances by `height + 25` per row. -/
def hoverLoop (W mx my : ℤ) : List MenuItem → ℤ → ℕ → Option ℕ → Option ℕ
  | [], _, _, acc => acc
  | it :: rest, y, i, acc =>
      hoverLoop W mx my rest (y + it.height + 25) (i + 1)
        (if rowCollide W mx my y it.height then some i else acc)

/-- `hover_index` after the row-drawing loop of one iteration. -/
def updateHover (items : List MenuItem) (W mx my scroll_y : ℤ)
    (hover : Option ℕ) : Option ℕ :=
  hoverLoop W mx my items (scroll_y + TOPBAR_HEIGHT + 20) 0 hover

/-- `total_height = sum(i["height"] for i in items)`. -/
def totalHeight (items : List MenuItem) : ℤ :=
  (items.map (fun it => it.height)).sum

/-- The clamp `scroll_y = max(-max_scroll, min(0, scroll_y))` with
`max_scroll = max(0, total_height - (HEIGHT - TOPBAR_HEIGHT))`. -/
def clampScroll (items : List MenuItem) (H s : ℤ) : ℤ :=
  max (-(max 0 (totalHeight items - (H - TOPBAR_HEIGHT)))) (min 0 s)

/-- The event loop of one iteration: a quit event or an escape key returns
`EXIT`; a left click on the button returns `TIMED_POSTER`, otherwise a left
click with a remembered `hover_index` returns that row's path; wheel events
(buttons 4 and 5) below the top bar move `scroll_y` by `SCROLL_SPEED`. -/
def processEvents (items : List MenuItem) (mx my : ℤ) (hover : Option ℕ) :
    List MenuEvent → ℤ → Except MenuResult ℤ
  | [], s => .ok s
  | e :: rest, s =>
    match e with
    | .quit => .error ("EXIT", none)
    | .keydown k =>
        if k = K_ESCAPE then .error ("EXIT", none)
        else processEvents items mx my hover rest s
    | .mousedown b =>
        if b = 1 then
          if buttonCollide mx my then .error ("TIMED_POSTER", none)
          else
            match hover with
            | some i => .error ("IMAGE_SELECTED", some ((items.getD i ⟨"", 0⟩).path))
            | none => processEvents items mx my hover rest s
        else
          processEvents items mx my hover rest
            (if b = 4 ∧ TOPBAR_HEIGHT < my then s + SCROLL_SPEED
             else if b = 5 ∧ TOPBAR_HEIGHT < my then s - SCROLL_SPEED
             else s)

/-- One iteration of the main loop of `run_menu`: drain the events (which
may return a result), then clamp the scroll offset, then redraw the rows
which updates `hover_index`. -/
def menuFrame (items : List MenuItem) (W H : ℤ) (st : MenuState)
    (fi : FrameInput) : Except MenuResult MenuState :=
  match processEvents items fi.mx fi.my st.hover fi.events st.scroll_y with
  | .error r => .error r
  | .ok s =>
      let s2 := clampScroll items H s
      .ok ⟨s2, updateHover items W fi.mx fi.my s2 st.hover⟩

/-- The main loop of `run_menu`, run over a finite list of per-iteration
inputs; `none` means the loop is still running when the inputs run out. -/
def menuLoop (items : List MenuItem) (W H : ℤ) :
    List FrameInput → MenuState → Option MenuResult
  | [], _ => none
  | fi :: rest, st =>
      match menuFrame items W H st fi with
      | .error r => some r
      | .ok st2 => menuLoop items W H rest st2

/-- `run_menu`: if the images cache directory is missing
(`not os.path.isdir(IMAGE_DIR)`), return `("EXIT", None)` at once;
otherwise enter the main loop with `scroll_y = 0` and `hover_index = None`. -/
def run_menu (dirExists : Bool) (items : List MenuItem) (W H : ℤ)
    (frames : List FrameInput) : Option MenuResult :=
  if dirExists then menuLoop items W H frames ⟨0, none⟩
  else some ("EXIT", none)

end Menu

namespace ShowPng

/-- The crop at the end of `scale_letterbox_allow_zoom` always has exactly the
target size, whatever the input image, target and zoom are. -/
theorem scale_letterbox_size (iw ih tw th : ℕ) (min_zoom : ℚ) :
    scale_letterbox_allow_zoom iw ih tw th min_zoom = ⟨tw, th⟩ := by
  simp only [scale_letterbox_allow_zoom, PSize.mk.injEq]
  constructor <;> omega

/-- Consequently the pannable source is always exactly screen-sized. -/
theorem sourceSize_eq (iw ih sw sh : ℕ) : sourceSize iw ih sw sh = ⟨sw, sh⟩ := by
  simp [sourceSize, scale_letterbox_size]

/-- Consequently the scroll range is always zero. -/
theorem maxScroll_eq_zero (iw ih sw sh : ℕ) : maxScroll iw ih sw sh = 0 := by
  simp [maxScroll, sourceSize_eq]

theorem pyIntR_intCast (n : ℤ) : pyIntR (n : ℝ) = n := by
  unfold pyIntR
  split
  case isTrue h => exact Int.floor_intCast n
  case isFalse h => exact Int.ceil_intCast n

theorem ease_in_out_zero : ease_in_out 0 = 0 := by
  simp [ease_in_out]

theorem ease_in_out_one : ease_in_out 1 = 1 := by
  simp [ease_in_out, Real.cos_pi]
  norm_num

theorem ease_in_out_half : ease_in_out (1 / 2) = 1 / 2 := by
  unfold ease_in_out
  rw [show Real.pi * (1 / 2) = Real.pi / 2 by ring, Real.cos_pi_div_two]
  norm_num

/-- The cosine easing curve never decreases on `[0, 1]`. -/
theorem ease_in_out_monotoneOn : MonotoneOn ease_in_out (Set.Icc 0 1) := by
  intro a ha b hb hab
  unfold ease_in_out
  have hc : Real.cos (Real.pi * b) ≤ Real.cos (Real.pi * a) := by
    apply Real.cos_le_cos_of_nonneg_of_le_pi
    · exact mul_nonneg Real.pi_pos.le ha.1
    · calc Real.pi * b ≤ Real.pi * 1 :=
            mul_le_mul_of_nonneg_left hb.2 Real.pi_pos.le
        _ = Real.pi := mul_one _
    · exact mul_le_mul_of_nonneg_left hab Real.pi_pos.le
  linarith

/-- The first frame starts at the top of the pannable source. -/
theorem offset_y_first (total : ℕ) (ms : ℤ) (h : 1 < total) :
    offset_y 0 total ms = 0 := by
  have ht : tOf 0 total = 0 := by simp [tOf, h]
  simp [offset_y, ht, ease_in_out_zero, pyIntR_intCast]
  simp [pyIntR]

/-- The last frame ends exactly at `max_scroll`. -/
theorem offset_y_last (total : ℕ) (ms : ℤ) (h : 1 < total) :
    offset_y (total - 1) total ms = ms := by
  have hne : ((total : ℝ) - 1) ≠ 0 := by
    have : (1 : ℝ) < (total : ℝ) := by exact_mod_cast h
    intro hc
    nlinarith
  have ht : tOf (total - 1) total = 1 := by
    have hcast : ((total - 1 : ℕ) : ℝ) = (total : ℝ) - 1 := by
      have : 1 ≤ total := le_of_lt h
      push_cast [this]
      ring
    simp [tOf, h, hcast]
    exact div_self hne
  rw [offset_y, ht, ease_in_out_one, one_mul, pyIntR_intCast]

/-- An offset over a zero scroll range is zero. -/
theorem offset_y_zero_range (frame total : ℕ) : offset_y frame total 0 = 0 := by
  unfold offset_y
  rw [Int.cast_zero, mul_zero]
  have h := pyIntR_intCast 0
  simpa using h

end ShowPng

namespace Menu

/-- The row-drawing loop never erases a remembered hover index: whatever
rows the pointer misses, a `some` accumulator stays `some`. -/
theorem hoverLoop_isSome (W mx my : ℤ) (l : List MenuItem) (y : ℤ) (i : ℕ)
    (acc : Option ℕ) (h : acc.isSome = true) :
    (hoverLoop W mx my l y i acc).isSome = true := by
  induction l generalizing y i acc with
  | nil => simpa [hoverLoop] using h
  | cons it rest ih =>
      simp only [hoverLoop]
      apply ih
      cases hrc : rowCollide W mx my y it.height <;> simp [hrc, h]

/-- The clamped scroll offset never exceeds zero. -/
theorem clampScroll_le_zero (items : List MenuItem) (H s : ℤ) :
    clampScroll items H s ≤ 0 := by
  unfold clampScroll
  omega

/-- The clamped scroll offset never drops below minus the overflow. -/
theorem clampScroll_lower (items : List MenuItem) (H s : ℤ) :
    -(max 0 (totalHeight items - (H - TOPBAR_HEIGHT))) ≤ clampScroll items H s := by
  unfold clampScroll
  omega

end Menu

namespace ShowPng

/-- Claim C1, code evaluation at the failing input: for a 100x100 image on a
100x100 screen the cover scale is exactly 1, so `show_image_with_scroll`
recomputes with `min_zoom = 1.05`; the resize does produce a 105x105 image,
but `scale_letterbox_allow_zoom` center-crops it to exactly 100x100 in BOTH
dimensions, so the pannable source height equals the screen height (it does
not strictly exceed it), and `max_scroll = 0`. -/
theorem claim_C1_code_eval :
    resized_dims 100 100 100 100 (21 / 20) = (105, 105) ∧
    scale_letterbox_allow_zoom 100 100 100 100 (21 / 20) = ⟨100, 100⟩ ∧
    sourceSize 100 100 100 100 = ⟨100, 100⟩ ∧
    maxScroll 100 100 100 100 = 0 := by
  refine ⟨?_, scale_letterbox_size 100 100 100 100 (21 / 20),
    sourceSize_eq 100 100 100 100, maxScroll_eq_zero 100 100 100 100⟩
  norm_num [resized_dims, pyIntQ]
  decide

/-- Claim C2: for every image with positive dimensions, every positive target
and every `min_zoom >= 1`, `scale_letterbox_allow_zoom` returns an image of
exactly the target size; hence `max_scroll = 0` for every input of
`show_image_with_scroll` and every frame's vertical offset is zero. -/
theorem claim_C2 (iw ih tw th : ℕ) (hiw : 0 < iw) (hih : 0 < ih)
    (htw : 0 < tw) (hth : 0 < th) (mz : ℚ) (hmz : 1 ≤ mz) :
    scale_letterbox_allow_zoom iw ih tw th mz = ⟨tw, th⟩ ∧
    maxScroll iw ih tw th = 0 ∧
    ∀ frame total : ℕ, offset_y frame total (maxScroll iw ih tw th) = 0 := by
  refine ⟨scale_letterbox_size iw ih tw th mz, maxScroll_eq_zero iw ih tw th, ?_⟩
  intro frame total
  rw [maxScroll_eq_zero]
  exact offset_y_zero_range frame total

/-- Witness for claim C2 at the concrete input 3x4 image, 5x6 target,
`min_zoom = 1`. -/
theorem claim_C2_witness :
    scale_letterbox_allow_zoom 3 4 5 6 1 = ⟨5, 6⟩ ∧
    maxScroll 3 4 5 6 = 0 ∧
    offset_y 0 60 (maxScroll 3 4 5 6) = 0 := by
  have h := claim_C2 3 4 5 6 (by decide) (by decide) (by decide) (by decide)
    1 (by decide)
  exact ⟨h.1, h.2.1, h.2.2 0 60⟩

/-- Claim C3: the easing curve satisfies `eased(0) = 0`, `eased(1) = 1`,
`eased(0.5) = 0.5`, and is monotonically non-decreasing on `[0, 1]`. -/
theorem claim_C3 :
    ease_in_out 0 = 0 ∧ ease_in_out 1 = 1 ∧ ease_in_out (1 / 2) = 1 / 2 ∧
    MonotoneOn ease_in_out (Set.Icc 0 1) :=
  ⟨ease_in_out_zero, ease_in_out_one, ease_in_out_half, ease_in_out_monotoneOn⟩

/-- Counterexample to claim C4: with `seconds = 1/20` and `fps = 30`
(`seconds * fps = 1.5`), the loop renders `max(1, int(1.5)) = 1` frame while
`round(1.5) = 2`. -/
theorem claim_C4_counterexample :
    ((totalFrames (1 / 20) 30 : ℤ) ≠ round ((1 / 20 : ℚ) * 30)) := by
  have h1 : totalFrames (1 / 20) 30 = 1 := by norm_num [totalFrames, pyIntQ]
  have h2 : round ((1 / 20 : ℚ) * 30) = 2 := by rw [round_eq]; norm_num
  rw [h1, h2]
  decide

/-- Claim C4 as amended: for nonnegative `seconds` and `fps`, the per-image
sub-loop renders `max(1, floor(seconds * fps))` frames (truncation with a
minimum of one frame), not `round(seconds * fps)`. -/
theorem claim_C4_amended (seconds fps : ℚ) (ms : ℤ)
    (hs : 0 ≤ seconds) (hf : 0 ≤ fps) :
    (frameOffsets seconds fps ms).length = max 1 (Int.toNat ⌊seconds * fps⌋) := by
  have h : 0 ≤ seconds * fps := mul_nonneg hs hf
  simp [frameOffsets, totalFrames, pyIntQ, h]

/-- Witness for the amended claim C4 at `seconds = 2`, `fps = 30`. -/
theorem claim_C4_amended_witness :
    (frameOffsets 2 30 0).length = max 1 (Int.toNat ⌊(2 : ℚ) * 30⌋) :=
  claim_C4_amended 2 30 0 (by decide) (by decide)

/-- Claim C5: with `seconds = 2` and `fps = 30` the sub-loop renders exactly
60 frames, the vertical offset of frame 0 is 0, and the vertical offset of
the final frame (index 59) equals `max_scroll`, for every source image and
screen. -/
theorem claim_C5 :
    totalFrames 2 30 = 60 ∧
    ∀ iw ih sw sh : ℕ,
      (frameOffsets 2 30 (maxScroll iw ih sw sh)).length = 60 ∧
      offset_y 0 60 (maxScroll iw ih sw sh) = 0 ∧
      offset_y 59 60 (maxScroll iw ih sw sh) = maxScroll iw ih sw sh := by
  have h60 : totalFrames 2 30 = 60 := by
    norm_num [totalFrames, pyIntQ]
    decide
  refine ⟨h60, ?_⟩
  intro iw ih sw sh
  refine ⟨by simp [frameOffsets, h60], offset_y_first 60 _ (by norm_num), ?_⟩
  exact offset_y_last 60 (maxScroll iw ih sw sh) (by norm_num)

/-- Claim C9: the optional second positional argument of the folder-scroll
CLI is the seconds-per-image; when it is absent or `float()` fails on it,
the default 5.0 is used; when parsing succeeds its value is used. -/
theorem claim_C9 (pf : String → Option ℚ) (argv : List String) :
    (argv.length < 3 → parse_seconds pf argv = 5) ∧
    (pf (argv.getD 2 "") = none → parse_seconds pf argv = 5) ∧
    (∀ v : ℚ, 3 ≤ argv.length → pf (argv.getD 2 "") = some v →
      parse_seconds pf argv = v) := by
  refine ⟨?_, ?_, ?_⟩
  · intro h
    unfold parse_seconds
    rw [if_neg (by omega)]
  · intro h
    unfold parse_seconds
    split
    · rw [h]
    · rfl
  · intro v hlen hpf
    unfold parse_seconds
    rw [if_pos hlen, hpf]

/-- Witness for claim C9: a three-element argv whose second positional
argument does not parse yields the default 5. -/
theorem claim_C9_witness :
    parse_seconds (fun _ => none) ["show_folder_scroll.py", "imgs", "abc"] = 5 :=
  (claim_C9 (fun _ => none) ["show_folder_scroll.py", "imgs", "abc"]).2.1 rfl

/-- Claim C10: `collect_image_files` returns the folder's image files grouped
by extension in the fixed order png, jpg, jpeg, webp, bmp, each group sorted
by name; a folder mixing extensions therefore does not come out globally
sorted, as the concrete folder `a.jpg`, `b.png` shows. -/
theorem claim_C10 :
    (∀ names : List String,
      collect_image_files names =
        sortNames (names.filter (fun n => pyEndsWith n ".png")) ++
        sortNames (names.filter (fun n => pyEndsWith n ".jpg")) ++
        sortNames (names.filter (fun n => pyEndsWith n ".jpeg")) ++
        sortNames (names.filter (fun n => pyEndsWith n ".webp")) ++
        sortNames (names.filter (fun n => pyEndsWith n ".bmp"))) ∧
    collect_image_files ["a.jpg", "b.png"] = ["b.png", "a.jpg"] ∧
    collect_image_files ["a.jpg", "b.png"] ≠ sortNames ["a.jpg", "b.png"] := by
  refine ⟨?_, by decide, by decide⟩
  intro names
  simp [collect_image_files, image_exts]

end ShowPng

namespace Menu

/-- Counterexample to claim C6: with one 150-pixel row on a 1080-pixel-high
screen the gallery is shorter than the viewport; after the clamping step the
offset is 0, but the claimed lower bound `-(total - viewport)` is the
positive number 860, so the claimed inequality fails. -/
theorem claim_C6_counterexample :
    menuFrame [⟨"a.png", 150⟩] 1920 1080 ⟨0, none⟩ ⟨0, 0, []⟩ =
      .ok ⟨0, none⟩ ∧
    ¬ (-(totalHeight [(⟨"a.png", 150⟩ : MenuItem)] - (1080 - TOPBAR_HEIGHT)) ≤
        (0 : ℤ)) := by
  constructor
  · rfl
  · decide

/-- Claim C6 as amended: after the clamping step of every loop iteration,
`-(max 0 (total_content_height - viewport_height)) <= scroll_y <= 0`; when
the content is shorter than the viewport the lower bound is 0, not the
positive value `-(total - viewport)`. -/
theorem claim_C6_amended (items : List MenuItem) (W H : ℤ) (st : MenuState)
    (fi : FrameInput) (st2 : MenuState)
    (h : menuFrame items W H st fi = .ok st2) :
    -(max 0 (totalHeight items - (H - TOPBAR_HEIGHT))) ≤ st2.scroll_y ∧
    st2.scroll_y ≤ 0 := by
  rcases hp : processEvents items fi.mx fi.my st.hover fi.events st.scroll_y
    with r | s
  · rw [menuFrame, hp] at h
    cases h
  · rw [menuFrame, hp] at h
    simp only [Except.ok.injEq] at h
    rw [← h]
    exact ⟨clampScroll_lower items H s, clampScroll_le_zero items H s⟩

/-- Witness for the amended claim C6 at a concrete quiet iteration. -/
theorem claim_C6_amended_witness :
    -(max 0 (totalHeight [(⟨"a.png", 150⟩ : MenuItem)] -
        (1080 - TOPBAR_HEIGHT))) ≤
      (MenuState.mk 0 none).scroll_y ∧
    (MenuState.mk 0 none).scroll_y ≤ 0 :=
  claim_C6_amended [⟨"a.png", 150⟩] 1920 1080 ⟨0, none⟩ ⟨0, 0, []⟩ ⟨0, none⟩ rfl

/-- Claim C7: the row redraw never resets a remembered `hover_index` to
`None`, and a later left click at a position over neither the button nor any
row still returns `IMAGE_SELECTED` with the previously hovered row's path. -/
theorem claim_C7 (items : List MenuItem) (W H mx my : ℤ) (st : MenuState)
    (i : ℕ)
    (hh : st.hover = some i)
    (hb : buttonCollide mx my = false)
    (hr : updateHover items W mx my st.scroll_y none = none) :
    (updateHover items W mx my st.scroll_y st.hover).isSome = true ∧
    menuFrame items W H st ⟨mx, my, [.mousedown 1]⟩ =
      .error ("IMAGE_SELECTED", some ((items.getD i ⟨"", 0⟩).path)) := by
  constructor
  · rw [hh]
    exact hoverLoop_isSome W mx my items _ 0 (some i) rfl
  · simp [menuFrame, processEvents, hb, hh]

/-- Witness for claim C7: one row, pointer at the top-left corner (over
nothing), remembered hover on row 0; the click returns that row's path. -/
theorem claim_C7_witness :
    (updateHover [⟨"a.png", 100⟩] 1920 0 0 0 (some 0)).isSome = true ∧
    menuFrame [⟨"a.png", 100⟩] 1920 1080 ⟨0, some 0⟩ ⟨0, 0, [.mousedown 1]⟩ =
      .error ("IMAGE_SELECTED", some "a.png") := by
  have h := claim_C7 [⟨"a.png", 100⟩] 1920 1080 0 0 ⟨0, some 0⟩ 0 rfl rfl rfl
  exact ⟨h.1, h.2⟩

/-- Claim C8: when the images cache directory does not exist, `run_menu`
returns `("EXIT", None)` whatever interactive inputs would have followed —
the interactive loop is never entered. -/
theorem claim_C8 (items : List MenuItem) (W H : ℤ) (frames : List FrameInput) :
    run_menu false items W H frames = some ("EXIT", none) := rfl

end Menu
